import Mathlib

/-!
Verification of the engine-build and inference core of `src/csrc/engine.cpp`
(`odtk::Engine`).  The TensorRT network-definition surface actually used by
that file is shallowly embedded: a network is an ordered tensor store plus
ordered input/output lists; the external TensorRT objects (builder, parser,
runtime) are treated as collaborators, and only the state the constructor
reads and mutates is modelled.  Machine `int` values are modelled as `Int`
(no arithmetic in the source can overflow on the sizes involved), C++ float
parameters are carried opaquely as `Rat` (the source never computes with
them, it only stores and forwards them), and fallible accesses
(`vector::at`, out-of-bounds `operator[]`, null returns) are modelled with
`Option`/`Except`.
-/

namespace RetinanetEngine

/-- A tensor of the network definition: the name and the dimension vector
(`ITensor::getName` / `ITensor::getDimensions` as used by `engine.cpp`). -/
structure NetTensor where
  name : String
  dims : List Int
deriving Repr, DecidableEq, Inhabited

/-- Layers added by `Engine::Engine` to the parsed network.  The source
constructs both the plain and the rotated plugin and adds exactly one of
them, selected by the `rotated` flag; the embedding records the selected
variant in the `rotated` field.  Plugin internals are external collaborators
(`plugins/*.h` are not part of the analysed source); only the parameters the
constructor passes and the output arity used by the constructor are kept. -/
inductive LayerRec where
  | decodeL (rotated : Bool) (score_thresh : Rat) (top_n : Int) (anchors : List Rat)
      (scale : Int) (inputs : List Nat) (outputs : List Nat)
  | concatL (inputs : List Nat) (outputs : List Nat)
  | nmsL (rotated : Bool) (nms_thresh : Rat) (detections_per_im : Int)
      (inputs : List Nat) (outputs : List Nat)
deriving Repr, DecidableEq, Inhabited

/-- The slice of `INetworkDefinition` state that `engine.cpp` reads and
mutates: a tensor store (tensor handles are indices into it), the ordered
input list, the ordered list of currently marked outputs, and the layers
added by the constructor. -/
structure Network where
  tensors : List NetTensor
  inputs : List Nat
  outputs : List Nat
  layers : List LayerRec
deriving Repr, DecidableEq, Inhabited

/-- `INetworkDefinition::getNbOutputs`. -/
def Network.getNbOutputs (n : Network) : Nat := n.outputs.length

/-- `INetworkDefinition::getOutput(i)`; `none` models the null pointer
returned for an out-of-range index. -/
def Network.getOutput (n : Network) (i : Nat) : Option Nat := n.outputs.get? i

/-- `INetworkDefinition::getInput(i)`. -/
def Network.getInput (n : Network) (i : Nat) : Option Nat := n.inputs.get? i

/-- Dimensions of the tensor behind a handle (`ITensor::getDimensions`). -/
def Network.tensorDims (n : Network) (id : Nat) : Option (List Int) :=
  (n.tensors.get? id).map NetTensor.dims

/-- `INetworkDefinition::unmarkOutput(*t)`: the tensor is removed from the
marked-output list. -/
def Network.unmarkOutput (n : Network) (id : Nat) : Network :=
  { n with outputs := n.outputs.erase id }

/-- `INetworkDefinition::markOutput(*t)`: the tensor is appended to the
marked-output list. -/
def Network.markOutput (n : Network) (id : Nat) : Network :=
  { n with outputs := n.outputs ++ [id] }

/-- Rename the tensor at index `i` (`ITensor::setName`). -/
def setNameList (ts : List NetTensor) (i : Nat) (s : String) : List NetTensor :=
  match ts, i with
  | [], _ => []
  | t :: rest, 0 => { t with name := s } :: rest
  | t :: rest, k+1 => t :: setNameList rest k s

/-- `ITensor::setName` on the tensor behind a handle. -/
def Network.setName (n : Network) (id : Nat) (s : String) : Network :=
  { n with tensors := setNameList n.tensors id s }

/-- Fresh tensors created for a plugin layer's outputs carry no name and
unknown dimensions until TensorRT computes them (never read by the source). -/
def freshTensor : NetTensor := { name := "", dims := [] }

/-- `network->addPluginV2(inputs, 2, decodePlugin / decodeRotatePlugin)`.
Modelled from the spec: `plugins/DecodePlugin.h` is not under the analysed
source; per the spec the decode operator exposes three outputs
(scores, boxes, classes), which is exactly the arity the constructor reads
(`layer->getOutput(0/1/2)`). -/
def Network.addDecode (n : Network) (rotated : Bool) (st : Rat) (tn : Int)
    (an : List Rat) (scale : Int) (ins : List Nat) : Network × Nat × Nat × Nat :=
  let base := n.tensors.length
  ({ n with
      tensors := n.tensors ++ [freshTensor, freshTensor, freshTensor],
      layers := n.layers ++
        [LayerRec.decodeL rotated st tn an scale ins [base, base + 1, base + 2]] },
   base, base + 1, base + 2)

/-- `network->addConcatenation(tensors.data(), tensors.size())`: one output
tensor.  The source assumes the call succeeds (it never checks for null), so
the external builder is modelled as total here. -/
def Network.addConcat (n : Network) (ins : List Nat) : Network × Nat :=
  let base := n.tensors.length
  ({ n with
      tensors := n.tensors ++ [freshTensor],
      layers := n.layers ++ [LayerRec.concatL ins [base]] },
   base)

/-- `network->addPluginV2(concat, 3, nmsPlugin / nmsRotatePlugin)`.
Modelled from the spec: `plugins/NMSPlugin.h` is not under the analysed
source; per the spec the NMS operator produces exactly the three named
tensors, so the layer has three outputs. -/
def Network.addNMS (n : Network) (rotated : Bool) (nt : Rat) (det : Int)
    (ins : List Nat) : Network × List Nat :=
  let base := n.tensors.length
  ({ n with
      tensors := n.tensors ++ [freshTensor, freshTensor, freshTensor],
      layers := n.layers ++ [LayerRec.nmsL rotated nt det ins [base, base + 1, base + 2]] },
   [base, base + 1, base + 2])

/-- The arguments of the engine-build constructor
`Engine::Engine(onnx_model, onnx_size, dynamic_batch_opts, precision, ...)`
other than the model bytes themselves (the parser consuming those bytes is
an external collaborator; its result is the parsed `Network`). -/
structure BuildConfig where
  dynamic_batch_opts : List Int
  precision : String
  score_thresh : Rat
  top_n : Int
  anchors : List (List Rat)
  rotated : Bool
  nms_thresh : Rat
  detections_per_im : Int
  calibration_images : List String
  model_name : String
  calibration_table : String
  verbose : Bool
  workspace_size : Nat
deriving Repr, DecidableEq, Inhabited

/-- Observable result of the engine-build constructor: the console messages
printed, the builder flags set, the optimization profile dimensions and
whether the profile was attached, the calibration profile and calibrator (if
any), the ids unmarked and marked during output surgery, the final network,
and whether `buildSerializedNetwork` was reached. -/
structure BuildResult where
  messages : List String
  fp16Flag : Bool
  int8Flag : Bool
  profileMin : List Int
  profileOpt : List Int
  profileMax : List Int
  profileAttached : Bool
  calibProfile : Option (List Int × List Int × List Int)
  calib : Option (Int × String × String)
  unmarkedIds : List Nat
  markedIds : List Nat
  network : Network
  reachedCompile : Bool
deriving Repr, DecidableEq, Inhabited

/-- The `for (int i = 0; i < nbOutputs / 2; i++)` decode-plugin loop of the
constructor, written by recursion on the remaining iteration count `k`
(called with `i = 0`, `k = nbOutputs / 2`).  Each step reads class output
`i`, box output `half + i`, computes `scale = inputDims.d[2] / outputDims.d[2]`
(C integer division), reads `anchors[i]` (out of bounds is undefined
behaviour in the source, `none` here), and adds the decode plugin layer,
accumulating its three outputs. -/
def decodeLoop (cfg : BuildConfig) (inputH : Int) (half : Nat) (net : Network)
    (i k : Nat) (sc bx cl : List Nat) :
    Option (Network × List Nat × List Nat × List Nat) :=
  match k with
  | 0 => some (net, sc, bx, cl)
  | k+1 => do
      let classOutput ← net.getOutput i
      let boxOutput ← net.getOutput (half + i)
      let outputDims ← net.tensorDims classOutput
      let classH ← outputDims.get? 2
      let anch ← cfg.anchors.get? i
      let res := net.addDecode cfg.rotated cfg.score_thresh cfg.top_n anch
        (Int.tdiv inputH classH) [classOutput, boxOutput]
      decodeLoop cfg inputH half res.1 (i+1) k
        (sc ++ [res.2.1]) (bx ++ [res.2.2.1]) (cl ++ [res.2.2.2])

/-- The `for (int i = 0; i < nbOutputs; i++) unmarkOutput(*getOutput(0))`
cleanup loop; returns the ids unmarked, in order.  `getOutput(0)` on an
empty output list is a null dereference in the source, `none` here. -/
def unmarkLoop (net : Network) (k : Nat) : Option (Network × List Nat) :=
  match k with
  | 0 => some (net, [])
  | k+1 => do
      let id ← net.getOutput 0
      let res ← unmarkLoop (net.unmarkOutput id) k
      some (res.1, id :: res.2)

/-- `vector<string> names = {"scores", "boxes", "classes"}` of the source. -/
def outputNames : List String := ["scores", "boxes", "classes"]

/-- The `for (int i = 0; i < layer->getNbOutputs(); i++)` marking loop:
mark output `i` of the NMS layer, then set its name to `names[i]`
(`names[i]` past index 2 is undefined behaviour in the source, `none` here).
Returns the ids marked, in order. -/
def markLoop (net : Network) (louts : List Nat) (i k : Nat) (acc : List Nat) :
    Option (Network × List Nat) :=
  match k with
  | 0 => some (net, acc)
  | k+1 => do
      let id ← louts.get? i
      let nm ← outputNames.get? i
      markLoop ((net.markOutput id).setName id nm) louts (i+1) k (acc ++ [id])

/-- The console line printed immediately before `buildSerializedNetwork`. -/
def applyingMsg : String := "Applying optimizations and building TRT CUDA engine..."

/-- Shallow embedding of the engine-build constructor `Engine::Engine`
(engine.cpp lines 90-193) after the external parser has produced `net0`.
`profileValid` is the verdict of the external `profile->isValid()` call.
The steps follow the source in order: precision flags, input dimensions,
optimization profile from `dynamic_batch_opts[0..2]`, optional INT8
calibration setup (`ImageStream(dynamic_batch_opts[1], ...)`), the decode
loop, the unmark loop, the three concatenations, the NMS plugin, the
mark-and-rename loop, and finally `buildSerializedNetwork`. -/
def buildEngine (net0 : Network) (cfg : BuildConfig) (profileValid : Bool) :
    Option BuildResult := do
  let fp16 := cfg.precision == "FP16"
  let int8 := cfg.precision == "INT8"
  let inputId ← net0.getInput 0
  let inputDims ← net0.tensorDims inputId
  let dC ← inputDims.get? 1
  let dH ← inputDims.get? 2
  let dW ← inputDims.get? 3
  let b0 ← cfg.dynamic_batch_opts.get? 0
  let b1 ← cfg.dynamic_batch_opts.get? 1
  let b2 ← cfg.dynamic_batch_opts.get? 2
  let pMin := [b0, dC, dH, dW]
  let pOpt := [b1, dC, dH, dW]
  let pMax := [b2, dC, dH, dW]
  let nb := net0.getNbOutputs
  let dres ← decodeLoop cfg dH (nb / 2) net0 0 (nb / 2) [] [] []
  let ures ← unmarkLoop dres.1 nb
  let cres1 := ures.1.addConcat dres.2.1
  let cres2 := cres1.1.addConcat dres.2.2.1
  let cres3 := cres2.1.addConcat dres.2.2.2
  let nres := cres3.1.addNMS cfg.rotated cfg.nms_thresh cfg.detections_per_im
    [cres1.2, cres2.2, cres3.2]
  let mres ← markLoop nres.1 nres.2 0 nres.2.length []
  some {
    messages := ["Building " ++ cfg.precision ++ " core model...",
                 "Building accelerated plugins...", applyingMsg],
    fp16Flag := fp16 || int8,
    int8Flag := int8,
    profileMin := pMin,
    profileOpt := pOpt,
    profileMax := pMax,
    profileAttached := profileValid,
    calibProfile := if int8 then some (pMin, pOpt, pMax) else none,
    calib := if int8 then some (b1, cfg.model_name, cfg.calibration_table) else none,
    unmarkedIds := ures.2,
    markedIds := mres.2,
    network := mres.1,
    reachedCompile := true }

/-- The slice of a deserialized `ICudaEngine` read by `Engine::infer`,
`Engine::getInputSize` and `Engine::getMaxDetections`: the I/O tensors in
engine enumeration order, each with its name (`getIOTensorName`) and
declared shape (`getTensorShape`). -/
structure RtEngine where
  ioTensors : List (String × List Int)
deriving Repr, DecidableEq, Inhabited

/-- `ICudaEngine::getNbIOTensors`. -/
def RtEngine.getNbIOTensors (e : RtEngine) : Nat := e.ioTensors.length

/-- `ICudaEngine::getIOTensorName(i)`; `none` models the null pointer for an
out-of-range index. -/
def RtEngine.getIOTensorName (e : RtEngine) (i : Nat) : Option String :=
  (e.ioTensors.get? i).map Prod.fst

/-- `ICudaEngine::getTensorShape(name)`: lookup by name (first match in
enumeration order). -/
def RtEngine.getTensorShape (e : RtEngine) (nm : String) : Option (List Int) :=
  List.lookup nm e.ioTensors

/-- Events of one `Engine::infer` call: a tensor-address binding
(`IExecutionContext::setTensorAddress`), the kernel enqueue
(`enqueueV3`), and the blocking synchronize (`cudaStreamSynchronize`). -/
inductive InferEvent where
  | bindT (name : String) (addr : Nat)
  | enqueue
  | streamWait
deriving Repr, DecidableEq, Inhabited

/-- The `for (int32_t i = 0, e = getNbIOTensors(); i < e; i++)` binding loop
of `Engine::infer`, by recursion on the remaining count `k`.
`buffers.at(i)` out of range throws `std::out_of_range` in the source:
modelled as `Except.error` carrying the events emitted so far, so that the
aborted call's partial trace stays observable. -/
def bindLoop (e : RtEngine) (buffers : List Nat) (i k : Nat) (acc : List InferEvent) :
    Except (List InferEvent) (List InferEvent) :=
  match k with
  | 0 => Except.ok acc
  | k+1 =>
    match e.getIOTensorName i with
    | none => Except.error acc
    | some nm =>
      match buffers.get? i with
      | none => Except.error acc
      | some addr => bindLoop e buffers (i+1) k (acc ++ [InferEvent.bindT nm addr])

/-- Shallow embedding of `Engine::infer(buffers, batch)` (engine.cpp lines
201-209): bind every I/O tensor address, then enqueue on the stream and
synchronize.  The `batch` argument is carried because the source declares
it. -/
def infer (e : RtEngine) (buffers : List Nat) (batch : Int) :
    Except (List InferEvent) (List InferEvent) :=
  match bindLoop e buffers 0 e.getNbIOTensors [] with
  | Except.error evs => Except.error evs
  | Except.ok evs => Except.ok (evs ++ [InferEvent.enqueue, InferEvent.streamWait])

/-- `Engine::getInputSize` (engine.cpp lines 211-216): the `{d[2], d[3]}`
pair of I/O tensor 0's declared shape. -/
def getInputSize (e : RtEngine) : Option (List Int) := do
  let nm ← e.getIOTensorName 0
  let dims ← e.getTensorShape nm
  let h ← dims.get? 2
  let w ← dims.get? 3
  pure [h, w]

/-- `Engine::getMaxDetections` (engine.cpp lines 222-227): `d[1]` of I/O
tensor 1's declared shape. -/
def getMaxDetections (e : RtEngine) : Option Int := do
  let nm ← e.getIOTensorName 1
  let dims ← e.getTensorShape nm
  dims.get? 1

/-- The Engine state touched by `Engine::_prepare`: whether the execution
context exists, the `_stream` member (a CUDA stream handle, `none` while no
stream has been created), and a freshness counter standing for the CUDA
runtime's allocation of new stream handles. -/
structure EngineState where
  contextCreated : Bool
  stream : Option Nat
  nextStreamId : Nat
deriving Repr, DecidableEq, Inhabited

/-- Events of `Engine::_prepare`, in program order. -/
inductive PrepEvent where
  | createContext
  | setOptimizationProfileAsync (profileIndex : Nat) (stream : Option Nat)
  | cudaStreamCreate (newStream : Nat)
deriving Repr, DecidableEq, Inhabited

/-- Shallow embedding of `Engine::_prepare` (engine.cpp lines 73-77):
create the execution context, call `setOptimizationProfileAsync(0, _stream)`
with the CURRENT value of the `_stream` member, and only then
`cudaStreamCreate(&_stream)`, which overwrites the member with a freshly
allocated handle. -/
def prepare (s : EngineState) : EngineState × List PrepEvent :=
  let s1 : EngineState := { s with contextCreated := true }
  let profEv := PrepEvent.setOptimizationProfileAsync 0 s1.stream
  let newId := s1.nextStreamId
  ({ s1 with stream := some newId, nextStreamId := newId + 1 },
   [PrepEvent.createContext, profEv, PrepEvent.cudaStreamCreate newId])

/-- Modelled from the spec: `engine.h` (the member declarations of `Engine`)
is not under the analysed source.  Per the spec the stream is allocated only
in the `Loaded -> Ready` transition and the destructor destroys the stream
"only if successfully created" (the source guards `if (_stream)`), so at
entry to `_prepare` in the constructor flow the `_stream` member holds the
null (not-yet-created) value. -/
def initialEngineState : EngineState :=
  { contextCreated := false, stream := none, nextStreamId := 0 }

/-- A concrete parsed network with one input `(1,3,512,512)` and `2*S = 2`
outputs (one class map, one box map), used to instantiate the theorems. -/
def sampleNet : Network :=
  { tensors := [{ name := "input", dims := [1, 3, 512, 512] },
                { name := "cls0", dims := [1, 9, 64, 64] },
                { name := "box0", dims := [1, 36, 64, 64] }],
    inputs := [0], outputs := [1, 2], layers := [] }

/-- A concrete INT8 build configuration with batch triple `(1, 4, 8)` and a
single anchor set, used to instantiate the theorems. -/
def sampleCfg : BuildConfig :=
  { dynamic_batch_opts := [1, 4, 8], precision := "INT8",
    score_thresh := 0, top_n := 1000, anchors := [[1, 2, 3, 4]],
    rotated := false, nms_thresh := 0, detections_per_im := 100,
    calibration_images := ["img0.jpg"], model_name := "retinanet",
    calibration_table := "calibration_table", verbose := false,
    workspace_size := 1024 }

/-- The build result on the concrete sample inputs. -/
def sampleResult : BuildResult :=
  (buildEngine sampleNet sampleCfg true).getD default

/-- A concrete parsed network with ZERO outputs (`S = 0`). -/
def netS0 : Network :=
  { tensors := [{ name := "input", dims := [1, 3, 512, 512] }],
    inputs := [0], outputs := [], layers := [] }

/-- A concrete FP32 build configuration with an empty anchor set. -/
def cfgS0 : BuildConfig :=
  { dynamic_batch_opts := [1, 1, 1], precision := "FP32",
    score_thresh := 0, top_n := 1000, anchors := [],
    rotated := false, nms_thresh := 0, detections_per_im := 100,
    calibration_images := [], model_name := "retinanet",
    calibration_table := "calibration_table", verbose := false,
    workspace_size := 1024 }

/-- A concrete two-output network paired below with an anchor set SHORTER
than its scale count. -/
def netShortAnchors : Network := sampleNet

/-- `sampleCfg` with the anchor set emptied: length 0 < S = 1. -/
def cfgShortAnchors : BuildConfig := { sampleCfg with anchors := [] }

/-- A concrete deserialized engine: one input tensor and the three detection
outputs, with the shapes the sample build would declare. -/
def sampleRtEngine : RtEngine :=
  { ioTensors := [("input", [1, 3, 512, 512]),
                  ("scores", [1, 100]),
                  ("boxes", [1, 100, 4]),
                  ("classes", [1, 100])] }

lemma setNameList_get?_self (s : String) :
    ∀ (ts : List NetTensor) (i : Nat),
      (setNameList ts i s).get? i = (ts.get? i).map (fun t => { t with name := s }) := by
  intro ts
  induction ts with
  | nil => intro i; simp [setNameList]
  | cons t rest ih =>
    intro i
    cases i with
    | zero => simp [setNameList]
    | succ k =>
      simp only [setNameList, List.get?_cons_succ]
      exact ih k

lemma setNameList_get?_ne (s : String) :
    ∀ (ts : List NetTensor) (i j : Nat), i ≠ j →
      (setNameList ts i s).get? j = ts.get? j := by
  intro ts
  induction ts with
  | nil => intro i j _; simp [setNameList]
  | cons t rest ih =>
    intro i j hne
    cases i with
    | zero =>
      cases j with
      | zero => exact absurd rfl hne
      | succ m => simp only [setNameList, List.get?_cons_succ]
    | succ k =>
      cases j with
      | zero => simp only [setNameList, List.get?_cons_zero]
      | succ m =>
        have hkm : k ≠ m := by omega
        simp only [setNameList, List.get?_cons_succ]
        exact ih k m hkm

lemma unmarkLoop_spec :
    ∀ (k : Nat) (net : Network), net.outputs.length = k →
      unmarkLoop net k = some ({ net with outputs := [] }, net.outputs) := by
  intro k
  induction k with
  | zero =>
    intro net h
    have h0 : net.outputs = [] := List.length_eq_zero.mp h
    cases net
    simp_all [unmarkLoop]
  | succ k ih =>
    intro net h
    match hout : net.outputs with
    | [] => rw [hout] at h; simp at h
    | id :: tl =>
      rw [hout] at h
      simp only [List.length_cons, Nat.succ.injEq] at h
      have hget : net.getOutput 0 = some id := by
        simp [Network.getOutput, hout]
      have herase : net.unmarkOutput id = { net with outputs := tl } := by
        simp [Network.unmarkOutput, hout]
      have ihres := ih { net with outputs := tl } (by simpa using h)
      simp only [unmarkLoop, hget, herase, Option.some_bind, ihres, bind]

lemma decodeLoop_preserves (cfg : BuildConfig) (inputH : Int) (half : Nat) :
    ∀ (k : Nat) (net : Network) (i : Nat) (sc bx cl : List Nat)
      (out : Network × List Nat × List Nat × List Nat),
      decodeLoop cfg inputH half net i k sc bx cl = some out →
      out.1.outputs = net.outputs ∧ out.1.inputs = net.inputs ∧
      (∃ ext, out.1.tensors = net.tensors ++ ext) ∧
      (∃ lext, out.1.layers = net.layers ++ lext) := by
  intro k
  induction k with
  | zero =>
    intro net i sc bx cl out h
    simp only [decodeLoop, Option.some.injEq] at h
    subst h
    exact ⟨rfl, rfl, ⟨[], by simp⟩, ⟨[], by simp⟩⟩
  | succ k ih =>
    intro net i sc bx cl out h
    simp only [decodeLoop, bind, Option.bind_eq_some] at h
    obtain ⟨cId, hc, bId, hb, dm, hdm, hC, hhC, anch, hanch, hrec⟩ := h
    obtain ⟨h1, h2, ⟨ext, h3⟩, ⟨lext, h4⟩⟩ := ih _ _ _ _ _ _ hrec
    refine ⟨?_, ?_, ⟨[freshTensor, freshTensor, freshTensor] ++ ext, ?_⟩,
      ⟨[LayerRec.decodeL cfg.rotated cfg.score_thresh cfg.top_n anch
          (Int.tdiv inputH hC) [cId, bId]
          [net.tensors.length, net.tensors.length + 1, net.tensors.length + 2]] ++ lext, ?_⟩⟩
    · rw [h1]; rfl
    · rw [h2]; rfl
    · rw [h3]; simp [Network.addDecode]
    · rw [h4]; simp [Network.addDecode]

lemma markLoop_three (net : Network) (b : Nat) :
    markLoop net [b, b+1, b+2] 0 3 []
      = some ((((((net.markOutput b).setName b "scores").markOutput
          (b+1)).setName (b+1) "boxes").markOutput (b+2)).setName (b+2) "classes",
        [b, b+1, b+2]) := rfl

lemma get?_append_triple (l : List NetTensor) (x y z : NetTensor) :
    (l ++ [x, y, z]).get? l.length = some x ∧
    (l ++ [x, y, z]).get? (l.length + 1) = some y ∧
    (l ++ [x, y, z]).get? (l.length + 2) = some z := by
  refine ⟨?_, ?_, ?_⟩ <;>
    rw [List.get?_append_right (by omega)] <;> simp



lemma decodeLoop_layer_at (cfg : BuildConfig) (inputH : Int) (half : Nat) :
    ∀ (k : Nat) (net : Network) (i : Nat) (sc bx cl : List Nat)
      (out : Network × List Nat × List Nat × List Nat),
      decodeLoop cfg inputH half net i k sc bx cl = some out →
      (∀ id ∈ net.outputs, id < net.tensors.length) →
      ∀ (j : Nat), j < k →
      ∀ (cId bId : Nat) (dm : List Int) (hC : Int) (anch : List Rat),
        net.outputs.get? (i + j) = some cId →
        net.outputs.get? (half + (i + j)) = some bId →
        net.tensorDims cId = some dm →
        dm.get? 2 = some hC →
        cfg.anchors.get? (i + j) = some anch →
        ∃ outs, out.1.layers.get? (net.layers.length + j)
          = some (LayerRec.decodeL cfg.rotated cfg.score_thresh cfg.top_n anch
              (Int.tdiv inputH hC) [cId, bId] outs) := by
  intro k
  induction k with
  | zero =>
    intro net i sc bx cl out h hwf j hj
    omega
  | succ k ih =>
    intro net i sc bx cl out h hwf j hj cId bId dm hC anch hc hb hdm hhC hanch
    simp only [decodeLoop, bind, Option.bind_eq_some] at h
    obtain ⟨cId0, hc0, bId0, hb0, dm0, hdm0, hC0, hhC0, anch0, hanch0, hrec⟩ := h
    cases j with
    | zero =>
      rw [Nat.add_zero] at hc hb hanch
      rw [Network.getOutput] at hc0 hb0
      rw [hc0] at hc
      rw [hb0] at hb
      injection hc with hceq
      injection hb with hbeq
      subst hceq
      subst hbeq
      rw [hdm0] at hdm
      injection hdm with hdmeq
      subst hdmeq
      rw [hhC0] at hhC
      injection hhC with hhCeq
      subst hhCeq
      rw [hanch0] at hanch
      injection hanch with hancheq
      subst hancheq
      obtain ⟨-, -, -, ⟨lext, hl⟩⟩ :=
        decodeLoop_preserves cfg inputH half k _ _ _ _ _ _ hrec
      refine ⟨[net.tensors.length, net.tensors.length + 1, net.tensors.length + 2], ?_⟩
      rw [hl]
      simp only [Network.addDecode, Nat.add_zero, List.append_assoc]
      rw [List.get?_append_right (Nat.le_refl _)]
      simp
    | succ j =>
      have hwf0 : cId0 ∈ net.outputs := List.get?_mem hc0
      have hlt : cId0 < net.tensors.length := hwf cId0 hwf0
      have hres := ih (net.addDecode cfg.rotated cfg.score_thresh cfg.top_n anch0
          (Int.tdiv inputH hC0) [cId0, bId0]).1 (i+1) (sc ++ [(net.addDecode cfg.rotated
          cfg.score_thresh cfg.top_n anch0 (Int.tdiv inputH hC0) [cId0, bId0]).2.1])
          (bx ++ [(net.addDecode cfg.rotated cfg.score_thresh cfg.top_n anch0
          (Int.tdiv inputH hC0) [cId0, bId0]).2.2.1])
          (cl ++ [(net.addDecode cfg.rotated cfg.score_thresh cfg.top_n anch0
          (Int.tdiv inputH hC0) [cId0, bId0]).2.2.2]) out hrec ?hwf j (by omega)
          cId bId dm hC anch ?hc ?hb ?hdm hhC ?hanch
      case hwf =>
        intro id hid
        simp only [Network.addDecode] at hid ⊢
        have := hwf id hid
        simp only [List.length_append, List.length_cons, List.length_nil]
        omega
      case hc =>
        show (net.addDecode _ _ _ _ _ _).1.outputs.get? (i + 1 + j) = some cId
        have : i + 1 + j = i + (j + 1) := by omega
        rw [this]
        exact hc
      case hb =>
        show (net.addDecode _ _ _ _ _ _).1.outputs.get? (half + (i + 1 + j)) = some bId
        have : i + 1 + j = i + (j + 1) := by omega
        rw [this]
        exact hb
      case hdm =>
        show (net.addDecode _ _ _ _ _ _).1.tensorDims cId = some dm
        have hcmem : cId ∈ net.outputs := List.get?_mem hc
        have hclt : cId < net.tensors.length := hwf cId hcmem
        simp only [Network.addDecode, Network.tensorDims] at hdm ⊢
        rw [List.get?_append hclt]
        exact hdm
      case hanch =>
        show cfg.anchors.get? (i + 1 + j) = some anch
        have : i + 1 + j = i + (j + 1) := by omega
        rw [this]
        exact hanch
      obtain ⟨outs, hout⟩ := hres
      refine ⟨outs, ?_⟩
      have hlay : (net.addDecode cfg.rotated cfg.score_thresh cfg.top_n anch0
          (Int.tdiv inputH hC0) [cId0, bId0]).1.layers.length = net.layers.length + 1 := by
        simp [Network.addDecode]
      rw [hlay] at hout
      have : net.layers.length + 1 + j = net.layers.length + (j + 1) := by omega
      rw [this] at hout
      exact hout



lemma buildEngine_shape (net0 : Network) (cfg : BuildConfig) (pv : Bool) (r : BuildResult)
    (hr : buildEngine net0 cfg pv = some r) :
    ∃ B, net0.tensors.length ≤ B ∧
      r.network.outputs = [B, B + 1, B + 2] ∧
      r.markedIds = [B, B + 1, B + 2] ∧
      r.network.tensors.get? B = some { name := "scores", dims := [] } ∧
      r.network.tensors.get? (B + 1) = some { name := "boxes", dims := [] } ∧
      r.network.tensors.get? (B + 2) = some { name := "classes", dims := [] } ∧
      r.unmarkedIds = net0.outputs ∧
      r.reachedCompile = true ∧
      applyingMsg ∈ r.messages := by
  simp only [buildEngine, bind, Option.bind_eq_some] at hr
  obtain ⟨inputId, hin, dims, hdm, dC, h1, dH, h2, dW, h3, b0, hb0, b1, hb1, b2, hb2,
    dres, hdres, ures, hures, mres, hmres, hEq⟩ := hr
  rw [Option.some.injEq] at hEq
  subst hEq
  obtain ⟨hout1, hin1, ⟨ext, htens1⟩, ⟨lext, hlay1⟩⟩ :=
    decodeLoop_preserves cfg dH (net0.getNbOutputs / 2) _ _ _ _ _ _ _ hdres
  have hlen : dres.1.outputs.length = net0.getNbOutputs := by
    rw [hout1]; rfl
  have humark := unmarkLoop_spec net0.getNbOutputs dres.1 hlen
  rw [humark, Option.some.injEq] at hures
  subst hures
  simp only [Network.addConcat, Network.addNMS, List.length_cons, List.length_nil] at hmres
  rw [markLoop_three, Option.some.injEq] at hmres
  subst hmres
  refine ⟨(dres.1.tensors ++ [freshTensor] ++ [freshTensor] ++ [freshTensor]).length,
    ?_, ?_, ?_, ?_, ?_, ?_, ?_, ?_, ?_⟩
  · simp only [htens1, List.length_append, List.length_cons, List.length_nil]
    omega
  · simp [Network.markOutput, Network.setName]
  · rfl
  · simp only [Network.setName, Network.markOutput]
    rw [setNameList_get?_ne _ _ _ _ (by omega), setNameList_get?_ne _ _ _ _ (by omega),
      setNameList_get?_self]
    rw [(get?_append_triple _ freshTensor freshTensor freshTensor).1]
    rfl
  · simp only [Network.setName, Network.markOutput]
    rw [setNameList_get?_ne _ _ _ _ (by omega), setNameList_get?_self]
    rw [setNameList_get?_ne _ _ _ _ (by omega)]
    rw [(get?_append_triple _ freshTensor freshTensor freshTensor).2.1]
    rfl
  · simp only [Network.setName, Network.markOutput]
    rw [setNameList_get?_self]
    rw [setNameList_get?_ne _ _ _ _ (by omega), setNameList_get?_ne _ _ _ _ (by omega)]
    rw [(get?_append_triple _ freshTensor freshTensor freshTensor).2.2]
    rfl
  · exact hout1
  · rfl
  · simp [applyingMsg]

lemma unmarkLoop_preserves :
    ∀ (k : Nat) (net : Network) (out : Network × List Nat),
      unmarkLoop net k = some out →
      out.1.tensors = net.tensors ∧ out.1.inputs = net.inputs ∧
      out.1.layers = net.layers := by
  intro k
  induction k with
  | zero =>
    intro net out h
    simp only [unmarkLoop, Option.some.injEq] at h
    subst h
    exact ⟨rfl, rfl, rfl⟩
  | succ k ih =>
    intro net out h
    simp only [unmarkLoop, bind, Option.bind_eq_some] at h
    obtain ⟨id, hid, res, hres, hout⟩ := h
    rw [Option.some.injEq] at hout
    subst hout
    obtain ⟨h1, h2, h3⟩ := ih _ _ hres
    exact ⟨h1, h2, h3⟩

lemma markLoop_preserves_layers :
    ∀ (k : Nat) (net : Network) (louts : List Nat) (i : Nat) (acc : List Nat)
      (out : Network × List Nat),
      markLoop net louts i k acc = some out → out.1.layers = net.layers := by
  intro k
  induction k with
  | zero =>
    intro net louts i acc out h
    simp only [markLoop, Option.some.injEq] at h
    subst h
    rfl
  | succ k ih =>
    intro net louts i acc out h
    simp only [markLoop, bind, Option.bind_eq_some] at h
    obtain ⟨id, hid, nm, hnm, hrec⟩ := h
    have := ih _ _ _ _ _ hrec
    rw [this]
    rfl

lemma buildEngine_fields (net0 : Network) (cfg : BuildConfig) (pv : Bool) (r : BuildResult)
    (hr : buildEngine net0 cfg pv = some r) :
    ∃ inputId dims dC dH dW b0 b1 b2,
      net0.getInput 0 = some inputId ∧
      net0.tensorDims inputId = some dims ∧
      dims.get? 1 = some dC ∧ dims.get? 2 = some dH ∧ dims.get? 3 = some dW ∧
      cfg.dynamic_batch_opts.get? 0 = some b0 ∧
      cfg.dynamic_batch_opts.get? 1 = some b1 ∧
      cfg.dynamic_batch_opts.get? 2 = some b2 ∧
      r.fp16Flag = (cfg.precision == "FP16" || cfg.precision == "INT8") ∧
      r.int8Flag = (cfg.precision == "INT8") ∧
      r.profileMin = [b0, dC, dH, dW] ∧
      r.profileOpt = [b1, dC, dH, dW] ∧
      r.profileMax = [b2, dC, dH, dW] ∧
      r.profileAttached = pv ∧
      r.calibProfile = (if cfg.precision == "INT8" then
        some (r.profileMin, r.profileOpt, r.profileMax) else none) ∧
      r.calib = (if cfg.precision == "INT8" then
        some (b1, cfg.model_name, cfg.calibration_table) else none) := by
  simp only [buildEngine, bind, Option.bind_eq_some] at hr
  obtain ⟨inputId, hin, dims, hdm, dC, h1, dH, h2, dW, h3, b0, hb0, b1, hb1, b2, hb2,
    dres, hdres, ures, hures, mres, hmres, hEq⟩ := hr
  rw [Option.some.injEq] at hEq
  subst hEq
  exact ⟨inputId, dims, dC, dH, dW, b0, b1, b2, hin, hdm, h1, h2, h3, hb0, hb1, hb2,
    rfl, rfl, rfl, rfl, rfl, rfl, rfl, rfl⟩

lemma buildEngine_layers (net0 : Network) (cfg : BuildConfig) (pv : Bool) (r : BuildResult)
    (hr : buildEngine net0 cfg pv = some r) :
    ∃ inputId dims dH dres,
      net0.getInput 0 = some inputId ∧
      net0.tensorDims inputId = some dims ∧
      dims.get? 2 = some dH ∧
      decodeLoop cfg dH (net0.getNbOutputs / 2) net0 0 (net0.getNbOutputs / 2) [] [] []
        = some dres ∧
      ∃ tail, r.network.layers = dres.1.layers ++ tail := by
  simp only [buildEngine, bind, Option.bind_eq_some] at hr
  obtain ⟨inputId, hin, dims, hdm, dC, h1, dH, h2, dW, h3, b0, hb0, b1, hb1, b2, hb2,
    dres, hdres, ures, hures, mres, hmres, hEq⟩ := hr
  rw [Option.some.injEq] at hEq
  subst hEq
  refine ⟨inputId, dims, dH, dres, hin, hdm, h2, hdres, ?_⟩
  obtain ⟨-, -, hlay2⟩ := unmarkLoop_preserves _ _ _ hures
  have hlay5 := markLoop_preserves_layers _ _ _ _ _ _ hmres
  rw [hlay5]
  simp only [Network.addNMS, Network.addConcat]
  rw [hlay2]
  simp only [List.append_assoc]
  exact ⟨_, rfl⟩



/-- Claim C1: for every scale count `S ≥ 1` with an anchor set of length `S`, a
successful engine build unmarks all `2S` original outputs (they are exactly
the unmarked ids, in order, and none of them is still an output), and the
resulting graph has exactly 3 outputs, which are the marked NMS outputs,
named "scores", "boxes", "classes" in that order. -/
theorem build_replaces_outputs (net0 : Network) (cfg : BuildConfig) (pv : Bool)
    (r : BuildResult) (S : Nat)
    (hS : 1 ≤ S)
    (hout : net0.outputs.length = 2 * S)
    (hanch : cfg.anchors.length = S)
    (hvalid : ∀ id ∈ net0.outputs, id < net0.tensors.length)
    (hr : buildEngine net0 cfg pv = some r) :
    r.unmarkedIds = net0.outputs ∧
    r.markedIds = r.network.outputs ∧
    r.network.outputs.length = 3 ∧
    r.network.outputs.map (fun id => (r.network.tensors.get? id).map NetTensor.name)
      = [some "scores", some "boxes", some "classes"] ∧
    (∀ id ∈ net0.outputs, id ∉ r.network.outputs) := by
  obtain ⟨B, hBle, houts, hmk, hg1, hg2, hg3, hunm, hrc, hmsg⟩ :=
    buildEngine_shape net0 cfg pv r hr
  refine ⟨hunm, by rw [hmk, houts], by rw [houts]; rfl, ?_, ?_⟩
  · rw [houts]
    simp only [List.map_cons, List.map_nil]
    rw [hg1, hg2, hg3]
    rfl
  · intro id hid
    have hlt := hvalid id hid
    rw [houts]
    simp only [List.mem_cons, List.not_mem_nil, or_false]
    omega

/-- Claim C4: the FP16 builder flag is set if and only if the precision string is
"FP16" or "INT8"; in particular every INT8 build also enables FP16 kernels. -/
theorem fp16_flag_iff_precision (net0 : Network) (cfg : BuildConfig) (pv : Bool)
    (r : BuildResult) (hr : buildEngine net0 cfg pv = some r) :
    (r.fp16Flag = true ↔ (cfg.precision = "FP16" ∨ cfg.precision = "INT8")) ∧
    (cfg.precision = "INT8" → r.fp16Flag = true) := by
  obtain ⟨inputId, dims, dC, dH, dW, b0, b1, b2, -, -, -, -, -, -, -, -,
    hfp, -, -, -, -, -, -, -⟩ := buildEngine_fields net0 cfg pv r hr
  constructor
  · rw [hfp]
    simp [Bool.or_eq_true, beq_iff_eq]
  · intro h8
    rw [hfp, h8]
    simp

/-- Claim C3: the optimization profile's min/opt/max shapes take their batch
entries from the caller's batch triple and share the channel/height/width of
the parsed input tensor; for a monotone triple the shapes are componentwise
monotone; the profile is attached to the build configuration exactly when
the external validity check passes. -/
theorem profile_batch_monotone (net0 : Network) (cfg : BuildConfig) (pv : Bool)
    (r : BuildResult) (bmin bopt bmax : Int)
    (hopts : cfg.dynamic_batch_opts = [bmin, bopt, bmax])
    (hm1 : bmin ≤ bopt) (hm2 : bopt ≤ bmax)
    (hr : buildEngine net0 cfg pv = some r) :
    ∃ inputId dims c h w,
      net0.getInput 0 = some inputId ∧
      net0.tensorDims inputId = some dims ∧
      dims.get? 1 = some c ∧ dims.get? 2 = some h ∧ dims.get? 3 = some w ∧
      r.profileMin = [bmin, c, h, w] ∧
      r.profileOpt = [bopt, c, h, w] ∧
      r.profileMax = [bmax, c, h, w] ∧
      List.Forall₂ (· ≤ ·) r.profileMin r.profileOpt ∧
      List.Forall₂ (· ≤ ·) r.profileOpt r.profileMax ∧
      r.profileMin.tail = r.profileOpt.tail ∧
      r.profileOpt.tail = r.profileMax.tail ∧
      (r.profileAttached = true ↔ pv = true) := by
  obtain ⟨inputId, dims, dC, dH, dW, b0, b1, b2, hin, hdm, h1, h2, h3, hb0, hb1, hb2,
    -, -, hpmin, hpopt, hpmax, hpatt, -, -⟩ := buildEngine_fields net0 cfg pv r hr
  rw [hopts] at hb0 hb1 hb2
  simp only [List.get?_cons_zero, List.get?_cons_succ, Option.some.injEq] at hb0 hb1 hb2
  subst hb0; subst hb1; subst hb2
  refine ⟨inputId, dims, dC, dH, dW, hin, hdm, h1, h2, h3, hpmin, hpopt, hpmax,
    ?_, ?_, by rw [hpmin, hpopt]; rfl, by rw [hpopt, hpmax]; rfl, by rw [hpatt]⟩
  · rw [hpmin, hpopt]
    exact List.Forall₂.cons hm1 (List.Forall₂.cons le_rfl
      (List.Forall₂.cons le_rfl (List.Forall₂.cons le_rfl List.Forall₂.nil)))
  · rw [hpopt, hpmax]
    exact List.Forall₂.cons hm2 (List.Forall₂.cons le_rfl
      (List.Forall₂.cons le_rfl (List.Forall₂.cons le_rfl List.Forall₂.nil)))

/-- Claim C5: an INT8 build sets the INT8 builder flag, designates the same
optimization profile as the calibration profile, and constructs the
calibration stream (hence the calibrator) at the opt batch entry
`dynamic_batch_opts[1]`; a non-INT8 build constructs no calibrator. -/
theorem int8_calibration_setup (net0 : Network) (cfg : BuildConfig) (pv : Bool)
    (r : BuildResult) (bopt : Int)
    (hb : cfg.dynamic_batch_opts.get? 1 = some bopt)
    (hr : buildEngine net0 cfg pv = some r) :
    (cfg.precision = "INT8" →
      r.int8Flag = true ∧
      r.calibProfile = some (r.profileMin, r.profileOpt, r.profileMax) ∧
      r.calib = some (bopt, cfg.model_name, cfg.calibration_table)) ∧
    (cfg.precision ≠ "INT8" →
      r.int8Flag = false ∧ r.calibProfile = none ∧ r.calib = none) := by
  obtain ⟨inputId, dims, dC, dH, dW, b0, b1, b2, -, -, -, -, -, -, hb1, -,
    -, h8, -, -, -, -, hcp, hcal⟩ := buildEngine_fields net0 cfg pv r hr
  rw [hb] at hb1
  rw [Option.some.injEq] at hb1
  subst hb1
  constructor
  · intro heq
    rw [h8, hcp, hcal, heq]
    simp
  · intro hne
    rw [h8, hcp, hcal]
    simp [hne]

/-- Claim C6: for each scale `i`, the decode stage pairs class output `i` with box
output `nbOutputs/2 + i` and records the parameters
`(score_thresh, top_n, anchors[i], scale)` with
`scale = input_height / class_map_height` (C integer division) and the
rotated flag selecting the variant; the layer sits at position `i` among the
layers the constructor added. -/
theorem decode_pairing_and_scale (net0 : Network) (cfg : BuildConfig) (pv : Bool)
    (r : BuildResult) (i : Nat)
    (hvalid : ∀ id ∈ net0.outputs, id < net0.tensors.length)
    (hi : i < net0.outputs.length / 2)
    (inputId : Nat) (inDims : List Int) (inputH : Int)
    (hin : net0.getInput 0 = some inputId)
    (hindm : net0.tensorDims inputId = some inDims)
    (hinH : inDims.get? 2 = some inputH)
    (classId boxId : Nat) (dm : List Int) (classH : Int) (anch : List Rat)
    (hc : net0.outputs.get? i = some classId)
    (hb : net0.outputs.get? (net0.outputs.length / 2 + i) = some boxId)
    (hdm : net0.tensorDims classId = some dm)
    (hhC : dm.get? 2 = some classH)
    (ha : cfg.anchors.get? i = some anch)
    (hr : buildEngine net0 cfg pv = some r) :
    ∃ outs, r.network.layers.get? (net0.layers.length + i)
      = some (LayerRec.decodeL cfg.rotated cfg.score_thresh cfg.top_n anch
          (Int.tdiv inputH classH) [classId, boxId] outs) := by
  obtain ⟨inputId2, inDims2, dH, dres, hin2, hindm2, hinH2, hdres, tail, htail⟩ :=
    buildEngine_layers net0 cfg pv r hr
  rw [hin] at hin2
  rw [Option.some.injEq] at hin2
  subst hin2
  rw [hindm] at hindm2
  rw [Option.some.injEq] at hindm2
  subst hindm2
  rw [hinH] at hinH2
  rw [Option.some.injEq] at hinH2
  subst hinH2
  have hnb : net0.getNbOutputs = net0.outputs.length := rfl
  obtain ⟨outs, hlayer⟩ := decodeLoop_layer_at cfg inputH (net0.getNbOutputs / 2)
    (net0.getNbOutputs / 2) net0 0 [] [] [] dres hdres hvalid i (by rw [hnb]; exact hi)
    classId boxId dm classH anch (by rw [Nat.zero_add]; exact hc)
    (by rw [Nat.zero_add, hnb]; exact hb) hdm hhC (by rw [Nat.zero_add]; exact ha)
  refine ⟨outs, ?_⟩
  rw [htail]
  rw [List.get?_append ?hlt]
  · exact hlayer
  case hlt =>
    have := List.get?_eq_some.mp hlayer
    exact this.1



/-- Claim C2, counterexample: on a parsed network with zero outputs (`S = 0`) the
constructor does NOT abort: it still prints every console line including the
"Applying optimizations" one, still reaches `buildSerializedNetwork`, and
still mutates the graph (four layers added, three new outputs marked). -/
theorem build_zero_scales_reaches_compiler_cex :
    (buildEngine netS0 cfgS0 true).map BuildResult.reachedCompile = some true ∧
    (buildEngine netS0 cfgS0 true).map BuildResult.messages
      = some ["Building FP32 core model...", "Building accelerated plugins...",
              applyingMsg] ∧
    (buildEngine netS0 cfgS0 true).map (fun r => r.network.layers.length) = some 4 ∧
    (buildEngine netS0 cfgS0 true).map (fun r => r.network.outputs) = some [4, 5, 6] := by
  refine ⟨?_, ?_, ?_, ?_⟩ <;> decide

/-- Claim C2, amended: the constructor performs no scale/anchor validation.
With `S = 0` the build is not aborted: it reaches the "Applying
optimizations" message and the compiler call, and the graph still ends with
the three marked NMS outputs.  An anchor set shorter than the scale count is
an out-of-bounds `anchors[i]` access (undefined behaviour in the source,
failure of the embedding), not a detected configuration error. -/
theorem build_no_scale_validation (net0 : Network) (cfg : BuildConfig) (pv : Bool)
    (inputId : Nat) (dims : List Int) (dC dH dW b0 b1 b2 : Int)
    (h0 : net0.outputs = [])
    (hin : net0.getInput 0 = some inputId)
    (hdm : net0.tensorDims inputId = some dims)
    (h1 : dims.get? 1 = some dC) (h2 : dims.get? 2 = some dH) (h3 : dims.get? 3 = some dW)
    (hb0 : cfg.dynamic_batch_opts.get? 0 = some b0)
    (hb1 : cfg.dynamic_batch_opts.get? 1 = some b1)
    (hb2 : cfg.dynamic_batch_opts.get? 2 = some b2) :
    (∃ r, buildEngine net0 cfg pv = some r ∧ r.reachedCompile = true ∧
      applyingMsg ∈ r.messages ∧ r.network.outputs.length = 3) ∧
    buildEngine netShortAnchors cfgShortAnchors true = none := by
  constructor
  · have hnb : net0.getNbOutputs = 0 := by
      simp [Network.getNbOutputs, h0]
    have hsome : ∃ r, buildEngine net0 cfg pv = some r := by
      rw [buildEngine]
      simp only [hin, hdm, h1, h2, h3, hb0, hb1, hb2, hnb, Option.some_bind, bind,
        Nat.zero_div, decodeLoop, unmarkLoop, Network.addConcat, Network.addNMS,
        List.length_cons, List.length_nil]
      rw [markLoop_three]
      simp only [Option.some_bind]
      exact ⟨_, rfl⟩
    obtain ⟨r, hr⟩ := hsome
    obtain ⟨B, hBle, houts, hmk, hg1, hg2, hg3, hunm, hrc, hmsg⟩ :=
      buildEngine_shape net0 cfg pv r hr
    exact ⟨r, hr, hrc, hmsg, by rw [houts]; rfl⟩
  · decide

/-- Claim C7: in the Ready state, `getInputSize` returns the `(height, width)`
pair (dimensions 2 and 3) of I/O tensor 0's declared shape and
`getMaxDetections` returns dimension 1 of I/O tensor 1's declared shape. -/
theorem accessors_from_declared_shapes (e : RtEngine)
    (n0 n1 : String) (s0 s1 : List Int) (rest : List (String × List Int))
    (htens : e.ioTensors = (n0, s0) :: (n1, s1) :: rest)
    (hne : n1 ≠ n0)
    (h w m : Int)
    (hh : s0.get? 2 = some h) (hw : s0.get? 3 = some w) (hm : s1.get? 1 = some m) :
    getInputSize e = some [h, w] ∧ getMaxDetections e = some m := by
  rw [List.get?_eq_getElem?] at hh hw hm
  have hbeq : (n1 == n0) = false := beq_eq_false_iff_ne.mpr hne
  constructor
  · simp [getInputSize, RtEngine.getIOTensorName, RtEngine.getTensorShape, htens,
      List.lookup, hh, hw, bind]
  · simp [getMaxDetections, RtEngine.getIOTensorName, RtEngine.getTensorShape, htens,
      List.lookup, hbeq, hm, bind]

lemma bindLoop_short (e : RtEngine) (buffers : List Nat) :
    ∀ (k i : Nat) (acc : List InferEvent),
      buffers.length < i + k → i ≤ buffers.length →
      ∃ extra, bindLoop e buffers i k acc = Except.error (acc ++ extra) ∧
        ∀ ev ∈ extra, ∃ nm a, ev = InferEvent.bindT nm a := by
  intro k
  induction k with
  | zero =>
    intro i acc hlt hle
    omega
  | succ k ih =>
    intro i acc hlt hle
    rw [bindLoop]
    cases hname : e.getIOTensorName i with
    | none => exact ⟨[], by simp, by simp⟩
    | some nm =>
      cases hbuf : buffers.get? i with
      | none => exact ⟨[], by simp, by simp⟩
      | some addr =>
        have hi : i < buffers.length := (List.get?_eq_some.mp hbuf).1
        obtain ⟨extra, hrun, hall⟩ :=
          ih (i+1) (acc ++ [InferEvent.bindT nm addr]) (by omega) (by omega)
        refine ⟨InferEvent.bindT nm addr :: extra, ?_, ?_⟩
        · show bindLoop e buffers (i+1) k (acc ++ [InferEvent.bindT nm addr])
            = Except.error (acc ++ InferEvent.bindT nm addr :: extra)
          rw [hrun]
          simp
        · intro ev hev
          rcases List.mem_cons.mp hev with hcase | hcase
          · exact ⟨nm, addr, hcase⟩
          · exact hall ev hcase

/-- Claim C8: an `infer` call whose buffer list is shorter than the engine's I/O
tensor count does not silently succeed: the binding step raises the
out-of-range error and the aborted trace contains no kernel enqueue (only
tensor-address bindings). -/
theorem infer_short_buffers_error (e : RtEngine) (buffers : List Nat) (batch : Int)
    (hshort : buffers.length < e.getNbIOTensors) :
    ∃ evs, infer e buffers batch = Except.error evs ∧
      InferEvent.enqueue ∉ evs ∧
      ∀ ev ∈ evs, ∃ nm a, ev = InferEvent.bindT nm a := by
  obtain ⟨extra, hrun, hall⟩ :=
    bindLoop_short e buffers e.getNbIOTensors 0 [] (by omega) (by omega)
  rw [List.nil_append] at hrun
  refine ⟨extra, ?_, ?_, hall⟩
  · rw [infer, hrun]
  · intro hmem
    obtain ⟨nm, a, hev⟩ := hall _ hmem
    exact InferEvent.noConfusion hev

/-- Claim C9: in `_prepare`, `setOptimizationProfileAsync(0, _stream)` runs before
`cudaStreamCreate(&_stream)`: the profile call receives the prior
(not-yet-created) stream member, and the stream created afterwards is never
the value that was passed. -/
theorem prepare_profile_gets_prior_stream (s : EngineState) (hs : s.stream = none) :
    (prepare s).2 = [PrepEvent.createContext,
      PrepEvent.setOptimizationProfileAsync 0 s.stream,
      PrepEvent.cudaStreamCreate s.nextStreamId] ∧
    (prepare s).1.stream = some s.nextStreamId ∧
    s.stream ≠ (prepare s).1.stream := by
  refine ⟨rfl, rfl, ?_⟩
  rw [hs]
  simp [prepare]

/-- Claim C10: `Engine::infer` never reads its `batch` argument: two calls on the
same engine with the same buffers but different batch values bind the same
addresses, enqueue the same work and synchronize identically. -/
theorem infer_ignores_batch (e : RtEngine) (buffers : List Nat)
    (batch1 batch2 : Int) :
    infer e buffers batch1 = infer e buffers batch2 := rfl



theorem build_replaces_outputs_witness :
    (1 ≤ 1 ∧ sampleNet.outputs.length = 2 * 1 ∧ sampleCfg.anchors.length = 1 ∧
      (∀ id ∈ sampleNet.outputs, id < sampleNet.tensors.length) ∧
      buildEngine sampleNet sampleCfg true = some sampleResult) ∧
    (sampleResult.unmarkedIds = sampleNet.outputs ∧
      sampleResult.markedIds = sampleResult.network.outputs ∧
      sampleResult.network.outputs.length = 3 ∧
      sampleResult.network.outputs.map
          (fun id => (sampleResult.network.tensors.get? id).map NetTensor.name)
        = [some "scores", some "boxes", some "classes"] ∧
      (∀ id ∈ sampleNet.outputs, id ∉ sampleResult.network.outputs)) :=
  ⟨⟨by decide, by decide, by decide, by decide, by decide⟩,
   build_replaces_outputs sampleNet sampleCfg true sampleResult 1
     (by decide) (by decide) (by decide) (by decide) (by decide)⟩

theorem fp16_flag_iff_precision_witness :
    (buildEngine sampleNet sampleCfg true = some sampleResult) ∧
    ((sampleResult.fp16Flag = true ↔
        (sampleCfg.precision = "FP16" ∨ sampleCfg.precision = "INT8")) ∧
      (sampleCfg.precision = "INT8" → sampleResult.fp16Flag = true)) :=
  ⟨by decide, fp16_flag_iff_precision sampleNet sampleCfg true sampleResult (by decide)⟩

theorem profile_batch_monotone_witness :
    (sampleCfg.dynamic_batch_opts = [1, 4, 8] ∧ (1 : Int) ≤ 4 ∧ (4 : Int) ≤ 8 ∧
      buildEngine sampleNet sampleCfg true = some sampleResult) ∧
    (∃ inputId dims c h w,
      sampleNet.getInput 0 = some inputId ∧
      sampleNet.tensorDims inputId = some dims ∧
      dims.get? 1 = some c ∧ dims.get? 2 = some h ∧ dims.get? 3 = some w ∧
      sampleResult.profileMin = [1, c, h, w] ∧
      sampleResult.profileOpt = [4, c, h, w] ∧
      sampleResult.profileMax = [8, c, h, w] ∧
      List.Forall₂ (· ≤ ·) sampleResult.profileMin sampleResult.profileOpt ∧
      List.Forall₂ (· ≤ ·) sampleResult.profileOpt sampleResult.profileMax ∧
      sampleResult.profileMin.tail = sampleResult.profileOpt.tail ∧
      sampleResult.profileOpt.tail = sampleResult.profileMax.tail ∧
      (sampleResult.profileAttached = true ↔ true = true)) :=
  ⟨⟨rfl, by decide, by decide, by decide⟩,
   profile_batch_monotone sampleNet sampleCfg true sampleResult 1 4 8
     rfl (by decide) (by decide) (by decide)⟩

theorem int8_calibration_setup_witness :
    (sampleCfg.dynamic_batch_opts.get? 1 = some 4 ∧
      buildEngine sampleNet sampleCfg true = some sampleResult) ∧
    ((sampleCfg.precision = "INT8" →
        sampleResult.int8Flag = true ∧
        sampleResult.calibProfile
          = some (sampleResult.profileMin, sampleResult.profileOpt,
              sampleResult.profileMax) ∧
        sampleResult.calib = some (4, sampleCfg.model_name, sampleCfg.calibration_table)) ∧
      (sampleCfg.precision ≠ "INT8" →
        sampleResult.int8Flag = false ∧ sampleResult.calibProfile = none ∧
        sampleResult.calib = none)) :=
  ⟨⟨rfl, by decide⟩,
   int8_calibration_setup sampleNet sampleCfg true sampleResult 4 rfl (by decide)⟩

theorem decode_pairing_and_scale_witness :
    ((∀ id ∈ sampleNet.outputs, id < sampleNet.tensors.length) ∧
      0 < sampleNet.outputs.length / 2 ∧
      sampleNet.getInput 0 = some 0 ∧
      sampleNet.tensorDims 0 = some [1, 3, 512, 512] ∧
      ([1, 3, 512, 512] : List Int).get? 2 = some 512 ∧
      sampleNet.outputs.get? 0 = some 1 ∧
      sampleNet.outputs.get? (sampleNet.outputs.length / 2 + 0) = some 2 ∧
      sampleNet.tensorDims 1 = some [1, 9, 64, 64] ∧
      ([1, 9, 64, 64] : List Int).get? 2 = some 64 ∧
      sampleCfg.anchors.get? 0 = some [1, 2, 3, 4] ∧
      buildEngine sampleNet sampleCfg true = some sampleResult) ∧
    (∃ outs, sampleResult.network.layers.get? (sampleNet.layers.length + 0)
      = some (LayerRec.decodeL sampleCfg.rotated sampleCfg.score_thresh sampleCfg.top_n
          [1, 2, 3, 4] (Int.tdiv 512 64) [1, 2] outs)) :=
  ⟨⟨by decide, by decide, by decide, by decide, by decide, by decide, by decide,
    by decide, by decide, by decide, by decide⟩,
   decode_pairing_and_scale sampleNet sampleCfg true sampleResult 0
     (by decide) (by decide) 0 [1, 3, 512, 512] 512 (by decide) (by decide) (by decide)
     1 2 [1, 9, 64, 64] 64 [1, 2, 3, 4] (by decide) (by decide) (by decide) (by decide)
     (by decide) (by decide)⟩

theorem build_no_scale_validation_witness :
    (netS0.outputs = [] ∧ netS0.getInput 0 = some 0 ∧
      netS0.tensorDims 0 = some [1, 3, 512, 512] ∧
      ([1, 3, 512, 512] : List Int).get? 1 = some 3 ∧
      ([1, 3, 512, 512] : List Int).get? 2 = some 512 ∧
      ([1, 3, 512, 512] : List Int).get? 3 = some 512 ∧
      cfgS0.dynamic_batch_opts.get? 0 = some 1 ∧
      cfgS0.dynamic_batch_opts.get? 1 = some 1 ∧
      cfgS0.dynamic_batch_opts.get? 2 = some 1) ∧
    ((∃ r, buildEngine netS0 cfgS0 true = some r ∧ r.reachedCompile = true ∧
        applyingMsg ∈ r.messages ∧ r.network.outputs.length = 3) ∧
      buildEngine netShortAnchors cfgShortAnchors true = none) :=
  ⟨⟨rfl, rfl, rfl, rfl, rfl, rfl, rfl, rfl, rfl⟩,
   build_no_scale_validation netS0 cfgS0 true 0 [1, 3, 512, 512] 3 512 512 1 1 1
     rfl rfl rfl rfl rfl rfl rfl rfl rfl⟩

theorem accessors_from_declared_shapes_witness :
    (sampleRtEngine.ioTensors = ("input", [1, 3, 512, 512]) :: ("scores", [1, 100])
        :: [("boxes", [1, 100, 4]), ("classes", [1, 100])] ∧
      ("scores" : String) ≠ "input" ∧
      ([1, 3, 512, 512] : List Int).get? 2 = some 512 ∧
      ([1, 3, 512, 512] : List Int).get? 3 = some 512 ∧
      ([1, 100] : List Int).get? 1 = some 100) ∧
    (getInputSize sampleRtEngine = some [512, 512] ∧
      getMaxDetections sampleRtEngine = some 100) :=
  ⟨⟨rfl, by decide, rfl, rfl, rfl⟩,
   accessors_from_declared_shapes sampleRtEngine "input" "scores" [1, 3, 512, 512]
     [1, 100] [("boxes", [1, 100, 4]), ("classes", [1, 100])] rfl (by decide)
     512 512 100 rfl rfl rfl⟩

theorem infer_short_buffers_error_witness :
    ([100].length < sampleRtEngine.getNbIOTensors) ∧
    (∃ evs, infer sampleRtEngine [100] 1 = Except.error evs ∧
      InferEvent.enqueue ∉ evs ∧
      ∀ ev ∈ evs, ∃ nm a, ev = InferEvent.bindT nm a) :=
  ⟨by decide, infer_short_buffers_error sampleRtEngine [100] 1 (by decide)⟩

theorem prepare_profile_gets_prior_stream_witness :
    initialEngineState.stream = none ∧
    ((prepare initialEngineState).2 = [PrepEvent.createContext,
        PrepEvent.setOptimizationProfileAsync 0 initialEngineState.stream,
        PrepEvent.cudaStreamCreate initialEngineState.nextStreamId] ∧
      (prepare initialEngineState).1.stream = some initialEngineState.nextStreamId ∧
      initialEngineState.stream ≠ (prepare initialEngineState).1.stream) :=
  ⟨rfl, prepare_profile_gets_prior_stream initialEngineState rfl⟩

end RetinanetEngine
